import Mathlib

/-!
Verification of the attendance-calendar renderer and the PERSCOM client of the
Discord-Bot-NSWG1 repository, against its natural-language specification.

The embedding covers:
* the ECMAScript UTC date arithmetic the code relies on (proleptic Gregorian
  calendar, milliseconds since the Unix epoch), following the standard
  civil-from-days / days-from-civil formulation;
* `generateCalendarEmbed` from `src/commands/attendance.ts` (the counting and
  summary-line logic; the purely cosmetic table-cell rendering is not modelled);
* the month-resolution and validation phase of `attendanceCommand.execute`;
* `PerscomService.getAllForm1Data` and `PerscomService.deleteUsers` from
  `src/services/request_perscom.ts`, with the HTTP responses abstracted into an
  environment.

`TRACKING_START_DATE` is imported by the code from
`src/services/attendanceService.ts`, which only documents it as a single global
constant timestamp; it is therefore taken as an arbitrary parameter
(`trackingStart`, in epoch milliseconds) throughout.

JavaScript numbers are IEEE doubles; all values manipulated here (epoch
milliseconds, years, counters) are integers well inside the safe-integer range,
so they are modelled as `Int` / `Nat`.  The single floating-point operation,
`Math.round((attended / total) * 100)`, is modelled exactly; see
`attendanceRate`.
-/

/-! ### ECMAScript UTC date arithmetic

`epochDayOf y m d` is the number of days from 1970-01-01 to the civil date
(year `y`, zero-indexed month `m`, day-of-month `d`), for the proleptic
Gregorian calendar used by ECMAScript `Date`.  It follows the standard
era-based derivation (Hinnant's `days_from_civil`), written with Lean's `Int`
division, which rounds toward negative infinity for the positive divisors used
here.  The formula is valid for `0 ≤ m ≤ 12` (the arithmetic of the shifted,
March-based year makes month index 12 coincide with month 0 of the next year,
exactly the overflow behaviour of `Date.UTC(year, 12, d)`), and for every
integer `d` (day 0 denotes the last day of the preceding month, as in
JavaScript). -/
def epochDayOf (y m d : Int) : Int :=
  let yAdj : Int := if m ≤ 1 then y - 1 else y
  let era : Int := yAdj / 400
  let yoe : Int := yAdj - era * 400
  let mp : Int := if 2 ≤ m then m - 2 else m + 10
  let doy : Int := (153 * mp + 2) / 5 + d - 1
  let doe : Int := yoe * 365 + yoe / 4 - yoe / 100 + doy
  era * 146097 + doe - 719468

/-- Civil date (year, zero-indexed month, day-of-month) from a day-of-era
`doe ∈ [0, 146096]`, the year being relative to the start of the 400-year era
(Hinnant's `civil_from_days`, inner part). -/
def civilOfDoe (doe : Int) : Int × Int × Int :=
  let yoe : Int := (doe - doe / 1460 + doe / 36524 - doe / 146096) / 365
  let doy : Int := doe - (365 * yoe + yoe / 4 - yoe / 100)
  let mp : Int := (5 * doy + 2) / 153
  let d : Int := doy - (153 * mp + 2) / 5 + 1
  let m : Int := mp + (if mp < 10 then 3 else -9)
  (yoe + (if m ≤ 2 then 1 else 0), m - 1, d)

/-- Civil date (year, zero-indexed month, day-of-month) of an epoch-day number,
inverse of `epochDayOf`. -/
def civilOfEpochDay (z : Int) : Int × Int × Int :=
  let era : Int := (z + 719468) / 146097
  let doe : Int := z + 719468 - era * 146097
  ((civilOfDoe doe).1 + era * 400, (civilOfDoe doe).2.1, (civilOfDoe doe).2.2)

/-- Milliseconds in one day. -/
def msPerDay : Int := 86400000

/-- ECMAScript `MakeFullYear`: both `Date.UTC` and the `new Date(y, m, …)`
constructor remap a year argument in 0 .. 99 to 1900 .. 1999 (the legacy
two-digit-year rule); other year arguments pass through unchanged. -/
def makeFullYear (y : Int) : Int := if 0 ≤ y ∧ y ≤ 99 then 1900 + y else y

/-- `Date.UTC(y, m, d, h, mi, s, ms)`: epoch milliseconds of the given UTC
civil datetime (month `m` zero-indexed), with the year passed through
`MakeFullYear` as the specification prescribes. -/
def msOfUTCTime (y m d h mi s ms : Int) : Int :=
  msPerDay * epochDayOf (makeFullYear y) m d + 3600000 * h + 60000 * mi + 1000 * s + ms

/-- `Date.UTC(y, m, d)` with the time-of-day arguments defaulted to zero, i.e.
UTC midnight opening day `d`. -/
def msOfUTC (y m d : Int) : Int := msOfUTCTime y m d 0 0 0 0

/-- ECMAScript `Day(t)`: the epoch-day number containing the instant `t`
(floor division). -/
def epochDayOfMs (t : Int) : Int := t / msPerDay

/-- `Date.prototype.getUTCDay`: weekday index, Sunday = 0 .. Saturday = 6
(1970-01-01 was a Thursday, index 4). -/
def getUTCDay (t : Int) : Int := (epochDayOfMs t + 4) % 7

/-- `Date.prototype.getUTCFullYear`. -/
def getUTCFullYear (t : Int) : Int := (civilOfEpochDay (epochDayOfMs t)).1

/-- `Date.prototype.getUTCMonth` (zero-indexed). -/
def getUTCMonth (t : Int) : Int := (civilOfEpochDay (epochDayOfMs t)).2.1

/-- `Date.prototype.getUTCDate` (day of month, 1-based). -/
def getUTCDate (t : Int) : Int := (civilOfEpochDay (epochDayOfMs t)).2.2

/-- Day-of-month of day 0 of the month after zero-indexed month `m` of the
(already remapped) year `y`: the raw civil computation, before the
constructor's year remap. -/
def lastDayOfMonth (y m : Int) : Int := (civilOfEpochDay (epochDayOf y (m + 1) 0)).2.2

/-- `new Date(year, month + 1, 0).getDate()` (attendance.ts line 344): the
day-of-month read back from day 0 of the following month.  The local-time
constructor paired with the local-time reader yields a timezone-independent
calendar computation, so it is expressed with the UTC civil functions; the
constructor applies `MakeFullYear` to its year argument. -/
def jsLastDay (y m : Int) : Int := lastDayOfMonth (makeFullYear y) m

/-- Reference predicate: Gregorian leap year. -/
def isLeapYear (y : Int) : Bool := y % 4 == 0 && (y % 100 != 0 || y % 400 == 0)

/-- Reference function (written from the claim, for comparison with
`jsLastDay`): the calendar-correct number of days of zero-indexed month `m`
of year `y`. -/
def daysInMonth (y m : Int) : Int :=
  if m = 1 then (if isLeapYear y then 29 else 28)
  else if m = 3 ∨ m = 5 ∨ m = 8 ∨ m = 10 then 30
  else 31

/-! ### The calendar renderer (`generateCalendarEmbed`, attendance.ts 300-405)

Attendance records are their `date` timestamps in epoch milliseconds.  Only the
counters (`totalRaidDays`, `attendedRaidDays`) and the summary line below the
grid are modelled; the claims are about those. -/

/-- Lines 311-313: records whose UTC year and month match the viewed month. -/
def monthAttendance (attendanceData : List Int) (year month : Int) : List Int :=
  attendanceData.filter fun t => getUTCFullYear t == year && getUTCMonth t == month

/-- Lines 349-354, `compareDates(date1, date2)`: is `date1` within
`[Date.UTC(year, month, date2.getUTCDate(), 0, 0, 0),
  Date.UTC(year, month, date2.getUTCDate(), 23, 59, 59, 999)]`?
`year` and `month` come from the enclosing closure. -/
def compareDates (year month : Int) (date1 date2 : Int) : Bool :=
  let startOfDay : Int := msOfUTCTime year month (getUTCDate date2) 0 0 0 0
  let endOfDay : Int := msOfUTCTime year month (getUTCDate date2) 23 59 59 999
  decide (startOfDay ≤ date1 ∧ date1 ≤ endOfDay)

/-- Line 356: is the viewed month the current UTC month?  `now` stands for the
instant produced by `new Date()`. -/
def isCurrentMonth (year month now : Int) : Bool :=
  year == getUTCFullYear now && month == getUTCMonth now

/-- Line 357: the cutoff instant; `now` in the current month, otherwise
`Date.UTC(year, month + 1, 0)`, UTC midnight of the month's last day. -/
def lastDayToCount (year month now : Int) : Int :=
  if isCurrentMonth year month now then now else msOfUTC year (month + 1) 0

/-- Lines 359-382, counting effect of a single loop iteration `day`: the pair
(increment of `attendedRaidDays`, increment of `totalRaidDays`).  `ma` is the
`monthAttendance` list, `ldtc` the `lastDayToCount` instant. -/
def dayDelta (ma : List Int) (trackingStart ldtc year month day : Int) : Nat × Nat :=
  let date : Int := msOfUTC year month day
  let dayOfWeek : Int := getUTCDay date
  let isRaidDay : Bool := dayOfWeek == 3 || dayOfWeek == 6
  let isTrackingEnabled : Bool := decide (trackingStart ≤ date)
  if isRaidDay && decide (date ≤ ldtc) then
    if isTrackingEnabled then
      if ma.any (fun record => compareDates year month record date) then (1, 1) else (0, 1)
    else (0, 0)
  else (0, 0)

/-- State of the two counters after the first `k` iterations (days `1 .. k`) of
the loop of lines 359-390. -/
def countsAfter (attendanceData : List Int) (trackingStart now year month : Int) :
    Nat → Nat × Nat
  | 0 => (0, 0)
  | k + 1 =>
    let prev := countsAfter attendanceData trackingStart now year month k
    let d := dayDelta (monthAttendance attendanceData year month) trackingStart
      (lastDayToCount year month now) year month ((k : Int) + 1)
    (prev.1 + d.1, prev.2 + d.2)

/-- Final counter values of `generateCalendarEmbed`:
(`attendedRaidDays`, `totalRaidDays`) after the loop over days
`1 .. lastDay`. -/
def generateCalendarCounts (attendanceData : List Int)
    (trackingStart now year month : Int) : Nat × Nat :=
  countsAfter attendanceData trackingStart now year month (jsLastDay year month).toNat

/-- Line 396, `Math.round((attendedRaidDays / totalRaidDays) * 100)` guarded by
`totalRaidDays ≠ 0`.  `Math.round x = ⌊x + 1/2⌋`, and
`⌊100 a / t + 1/2⌋ = (200 a + t) / (2 t)` in integer division.  The
double-precision evaluation agrees with this exact value for every reachable
pair: `a ≤ t ≤ 31`, where `100 a / t` lands exactly on a half-integer only for
`t = 8` with `a` odd, values that are exact in binary, and otherwise sits at
least `1/(2·31)` away from a half-integer, far beyond double rounding error. -/
def attendanceRate (attended total : Nat) : Nat :=
  if total ≠ 0 then (200 * attended + total) / (2 * total) else 0

/-- Lines 397-401 append exactly one of two summary lines below the grid. -/
inductive CalendarFooter where
  /-- Line 398: «No attendance data available yet. Tracking begins ⟨date⟩». -/
  | noData (trackingStart : Int)
  /-- Line 400: «Attendance Rate: ⟨pct⟩% (⟨attended⟩/⟨total⟩ raids)». -/
  | rate (pct attended total : Nat)
deriving DecidableEq

/-- Summary line chosen by `generateCalendarEmbed` (lines 396-401). -/
def generateCalendarFooter (attendanceData : List Int)
    (trackingStart now year month : Int) : CalendarFooter :=
  let c := generateCalendarCounts attendanceData trackingStart now year month
  if c.1 == 0 && c.2 == 0 then .noData trackingStart
  else .rate (attendanceRate c.1 c.2) c.1 c.2

/-! ### Month resolution and validation in `attendanceCommand.execute`
(attendance.ts lines 52-95)

The phase between reading the two string options and the first external fetch
(the guild-member fetch of line 105).  `None` stands for a JavaScript `NaN` or
an absent option. -/

/-- JavaScript whitespace stripped by `parseInt` (the cases relevant to
option strings). -/
def jsWhitespace (c : Char) : Bool := c = ' ' || c = '\t' || c = '\n' || c = '\r'

/-- JavaScript `parseInt(s)` on a character list, restricted to its behaviour
on decimal input: trim, optional sign, then the maximal leading run of digits;
`NaN` (here `none`) when that run is empty. -/
def jsParseIntChars (cs0 : List Char) : Option Int :=
  let cs := cs0.dropWhile jsWhitespace
  let neg : Bool := decide (cs.head? = some '-')
  let rest : List Char :=
    if cs.head? = some '-' ∨ cs.head? = some '+' then cs.tail else cs
  let digits := rest.takeWhile Char.isDigit
  if digits.isEmpty then none
  else
    let n : Nat := digits.foldl (fun acc c => acc * 10 + (c.toNat - 48)) 0
    some (if neg then -(n : Int) else (n : Int))

/-- `parseInt` lifted to a possibly-undefined argument: `parseInt(undefined)`
is `NaN`. -/
def parseIntJS : Option (List Char) → Option Int
  | none => none
  | some cs => jsParseIntChars cs

/-- JavaScript `s.split('/')` on a character list; `acc` is the (reversed)
current segment. -/
def splitSlash : List Char → List Char → List (List Char)
  | [], acc => [acc.reverse]
  | c :: rest, acc =>
    if c = '/' then acc.reverse :: splitSlash rest [] else splitSlash rest (c :: acc)

/-- Ambient values `execute` reads before validating: the abstract local-time
constructor `new Date(year, month).getTime()`, the tracking-start constant, and
the `today = new Date()` instant with its local year and month. -/
structure ExecuteEnv where
  mkDateMs : Int → Int → Int
  trackingStartMs : Int
  todayMs : Int
  todayYear : Int
  todayMonth : Int

/-- Outcome of the pre-fetch phase of `execute`.  The three error constructors
are the user-visible validation replies of lines 64-84, each followed by
`return` before any external fetch; `proceedToFetch year month` means execution
falls through to the guild-member fetch of line 105 (and later the attendance
fetch) with the resolved view, `month = none` encoding `NaN`. -/
inductive PreFetchOutcome where
  | invalidFormat
  | beforeTrackingStart
  | futureDate
  | proceedToFetch (year : Int) (month : Option Int)
deriving DecidableEq

/-- Whether the outcome is one of the user-visible validation errors. -/
def PreFetchOutcome.isValidationReply : PreFetchOutcome → Bool
  | .proceedToFetch _ _ => false
  | _ => true

/-- Lines 52-95 of `execute`: month resolution and validation.  In the custom
branch, `month` and `year` are `parseInt` results (`none` = `NaN`), and the
validity test mirrors
`isNaN(month) || isNaN(year) || month < 0 || month > 11 || yearStr.length !== 4`
with JavaScript short-circuiting (when `yearStr` is `undefined`, `isNaN(year)`
already holds, so the length access is never reached; the `getD ""` default is
only read in that same case and also yields `true`). -/
def executePreFetch (env : ExecuteEnv) (customDate requestedMonth : Option String) :
    PreFetchOutcome :=
  match customDate with
  | some cd =>
    let parts := splitSlash cd.toList []
    let monthStr : Option (List Char) := parts.get? 0
    let yearStr : Option (List Char) := parts.get? 1
    let month : Option Int := (parseIntJS monthStr).map (fun v => v - 1)
    let year : Option Int := parseIntJS yearStr
    let invalid : Bool :=
      month.isNone || year.isNone ||
      (match month with
       | some mv => decide (mv < 0) || decide (mv > 11)
       | none => false) ||
      ((yearStr.getD []).length != 4)
    if invalid then .invalidFormat
    else
      match month, year with
      | some mv, some yv =>
        if env.mkDateMs yv mv < env.trackingStartMs then .beforeTrackingStart
        else if env.todayMs < env.mkDateMs yv mv then .futureDate
        else .proceedToFetch yv (some mv)
      | _, _ => .invalidFormat
  | none =>
    match requestedMonth with
    | some rm =>
      match parseIntJS (some rm.toList) with
      | some monthIndex =>
        .proceedToFetch
          (if env.todayMonth < monthIndex then env.todayYear - 1 else env.todayYear)
          (some monthIndex)
      | none => .proceedToFetch env.todayYear none
    | none => .proceedToFetch env.todayYear (some env.todayMonth)

/-! ### `PerscomService` (request_perscom.ts)

HTTP is abstracted into environments mapping a request to its outcome. -/

/-- Shape of a PERSCOM submission (the `Submission` interface,
request_perscom.ts lines 3-18). -/
structure Submission where
  id : Int
  form_id : Int
  user_id : Int
  created_at : String
  updated_at : String
  arma_3_id : String
  discord_name : String
  first_name : String
  date_of_birth : String
  email_address : String
  previous_unit : Int
  preferred_position : String
  why_do_you_want_to_join_red_squadron : String
  label : String
deriving DecidableEq

/-- The `Form1Submission` interface (lines 54-61). -/
structure Form1Submission where
  first_name : String
  discord_name : String
  preferred_position : String
  user_id : Int
  form_id : Int
  date_of_birth : String
deriving DecidableEq

/-- Outcome of one `fetch` of a submissions page. -/
inductive PageFetchResult where
  | ok (data : List Submission)
  | notOk (status : Nat) (statusText : String)
  | threw (err : String)
deriving DecidableEq

/-- Outcome of the initial metadata `fetch` (lines 134-152): on success only
`meta.last_page` is used. -/
inductive MetaFetchResult where
  | ok (last_page : Int)
  | notOk (status : Nat) (statusText : String)
  | threw (err : String)
deriving DecidableEq

/-- The PERSCOM API as seen by `getAllForm1Data`. -/
structure PerscomEnv where
  metadata : MetaFetchResult
  pages : Int → PageFetchResult

/-- Lines 172-179: a fetched submission mapped into the returned shape; note
`form_id` is set from the submission's `id`. -/
def toForm1 (s : Submission) : Form1Submission :=
  { first_name := s.first_name
    discord_name := s.discord_name
    preferred_position := s.preferred_position
    form_id := s.id
    user_id := s.user_id
    date_of_birth := s.date_of_birth }

/-- Lines 154-187, the `while (page <= lastPage)` loop: each iteration fetches
`page`, breaks on a non-ok response or a thrown error, otherwise appends the
converted `form_id === 1` submissions and advances to `page + 1`.  `remaining`
is the number of iterations the loop bound still allows
(`lastPage - page + 1`). -/
def pagesLoop (env : PerscomEnv) : Int → Nat → List Form1Submission
  | _, 0 => []
  | page, remaining + 1 =>
    match env.pages page with
    | .ok data => ((data.filter fun s => s.form_id == 1).map toForm1)
        ++ pagesLoop env (page + 1) remaining
    | .notOk _ _ => []
    | .threw _ => []

/-- `PerscomService.getAllForm1Data` (lines 128-189): on a failed metadata
fetch the empty list; otherwise the paging loop, which starts at the hardcoded
`page = 4` (line 130) and therefore runs for `lastPage - 4 + 1` iterations at
most. -/
def getAllForm1Data (env : PerscomEnv) : List Form1Submission :=
  match env.metadata with
  | .ok lastPage => pagesLoop env 4 (lastPage - 3).toNat
  | .notOk _ _ => []
  | .threw _ => []

/-- The `DeniedUsers` interface (lines 72-79); the optional fields are
`Option`. -/
structure DeniedUsers where
  first_name : String
  discord_name : String
  user_id : Int
  preferred_position : String
  form_id : Option Int
  date_of_birth : Option String
deriving DecidableEq

/-- Outcome of one `DELETE /v2/users/{id}` fetch: ok with a JSON body, ok with
a body on which `response.json()` throws, a non-ok status, or a thrown network
error. -/
inductive DeleteFetchResult where
  | okJson (body : String)
  | okBadJson (err : String)
  | notOk (status : Nat) (text : String)
  | threw (err : String)
deriving DecidableEq

/-- What `deleteUsers` does for one user: the console line it emits.  Every
branch of the loop body ends in `continue` / falling through to the next
iteration, never in an abort. -/
inductive DeleteLogEntry where
  /-- «Deleted user …» (line 225). -/
  | success (user_id : Int)
  /-- «Failed to delete user …» then `continue` (lines 220-222). -/
  | failedHttp (user_id : Int) (status : Nat) (text : String)
  /-- «Error deleting user …» from the `catch` (lines 226-228); also covers a
  throwing `response.json()`. -/
  | errored (user_id : Int) (err : String)
deriving DecidableEq

/-- The user a log entry is about. -/
def DeleteLogEntry.userOf : DeleteLogEntry → Int
  | .success i => i
  | .failedHttp i _ _ => i
  | .errored i _ => i

/-- One iteration of the `deleteUsers` loop body (lines 208-229). -/
def deleteOne (env : Int → DeleteFetchResult) (u : DeniedUsers) : DeleteLogEntry :=
  match env u.user_id with
  | .okJson _ => .success u.user_id
  | .okBadJson e => .errored u.user_id e
  | .notOk s t => .failedHttp u.user_id s t
  | .threw e => .errored u.user_id e

/-- `PerscomService.deleteUsers` (lines 207-230): a `for…of` over the users,
each handled by `deleteOne`. -/
def deleteUsers (env : Int → DeleteFetchResult) : List DeniedUsers → List DeleteLogEntry
  | [] => []
  | u :: rest => deleteOne env u :: deleteUsers env rest

/-! ### Sample data for concrete instantiations -/

/-- A form-1 submission whose submission id (99) differs from its
`form_id` (1). -/
def sampleSubmissionPage4 : Submission :=
  ⟨99, 1, 7, "2024-01-01", "2024-01-02", "A3", "disc", "First", "2000-01-01",
    "mail", 0, "rifleman", "because", "lbl"⟩

/-- An API with four pages whose only form-1 submission sits on page 4. -/
def samplePerscomEnv : PerscomEnv :=
  ⟨.ok 4, fun p => if p = 4 then .ok [sampleSubmissionPage4] else .ok []⟩

/-- An API with five pages whose only submissions sit on pages 1 to 3. -/
def perscomEnvEarlyOnly : PerscomEnv :=
  ⟨.ok 5, fun p => if p ≤ 3 then .ok [sampleSubmissionPage4] else .ok []⟩

/-- Like `perscomEnvEarlyOnly` but with pages 1 to 3 empty as well. -/
def perscomEnvAllEmpty : PerscomEnv :=
  ⟨.ok 5, fun _ => .ok []⟩

/-! ### Helper lemmas -/

/-- Shifting the year by 400 shifts the epoch day by the 146097-day Gregorian
cycle; equivalently, the year can be reduced modulo 400. -/
theorem epochDayOf_mod400 (y m d : Int) :
    epochDayOf y m d = epochDayOf (y % 400) m d + (y / 400) * 146097 := by
  unfold epochDayOf
  dsimp only
  split_ifs <;> omega

/-- Shifting an epoch day by whole 146097-day cycles shifts the civil year by
400 per cycle and leaves month and day unchanged. -/
theorem civilOfEpochDay_shift (z k : Int) :
    civilOfEpochDay (z + 146097 * k) =
      ((civilOfEpochDay z).1 + 400 * k, (civilOfEpochDay z).2.1,
        (civilOfEpochDay z).2.2) := by
  unfold civilOfEpochDay
  dsimp only
  have h1 : (z + 146097 * k + 719468) / 146097 = (z + 719468) / 146097 + k := by
    omega
  rw [h1]
  have h2 : z + 146097 * k + 719468 - ((z + 719468) / 146097 + k) * 146097
      = z + 719468 - (z + 719468) / 146097 * 146097 := by ring
  rw [h2]
  refine Prod.ext ?_ rfl
  dsimp only
  ring

/-- The raw month-length computation is invariant under reduction of the year
modulo 400. -/
theorem lastDayOfMonth_mod400 (y m : Int) :
    lastDayOfMonth y m = lastDayOfMonth (y % 400) m := by
  unfold lastDayOfMonth
  rw [epochDayOf_mod400 y (m + 1) 0,
    show (y / 400) * 146097 = 146097 * (y / 400) by ring,
    civilOfEpochDay_shift]

/-- Gregorian leap status is invariant under reduction of the year
modulo 400. -/
theorem isLeapYear_mod400 (y : Int) : isLeapYear (y % 400) = isLeapYear y := by
  unfold isLeapYear
  have h4 : y % 400 % 4 = y % 4 := by omega
  have h100 : y % 400 % 100 = y % 100 := by omega
  have h400 : y % 400 % 400 = y % 400 := by omega
  rw [h4, h100, h400]

/-- Reference month lengths are invariant under reduction of the year
modulo 400. -/
theorem daysInMonth_mod400 (y m : Int) : daysInMonth (y % 400) m = daysInMonth y m := by
  unfold daysInMonth
  rw [isLeapYear_mod400]

set_option maxRecDepth 10000 in
set_option maxHeartbeats 4000000 in
/-- Within one full 400-year Gregorian cycle, the raw month-length computation
agrees with the calendar-correct month length, checked exhaustively. -/
theorem lastDayOfMonth_base :
    ∀ r : Fin 400, ∀ m : Fin 12, lastDayOfMonth r.1 m.1 = daysInMonth r.1 m.1 := by
  decide

/-- The raw civil computation is calendar-correct for every integer year. -/
theorem lastDayOfMonth_correct (y m : Int) (h0 : 0 ≤ m) (h1 : m ≤ 11) :
    lastDayOfMonth y m = daysInMonth y m := by
  rw [lastDayOfMonth_mod400, ← daysInMonth_mod400]
  have hb := lastDayOfMonth_base ⟨(y % 400).toNat, by omega⟩ ⟨m.toNat, by omega⟩
  dsimp only at hb
  rwa [Int.toNat_of_nonneg (by omega : (0 : Int) ≤ y % 400),
    Int.toNat_of_nonneg h0] at hb

/-- For years 1 .. 99, leap status agrees with the corresponding remapped
year 1901 .. 1999 (year 0 is the one exception: it is leap, 1900 is not). -/
theorem isLeapYear_1900_shift (y : Int) (h1 : 1 ≤ y) (h99 : y ≤ 99) :
    isLeapYear (1900 + y) = isLeapYear y := by
  unfold isLeapYear
  have e4 : (1900 + y) % 4 = y % 4 := by omega
  have e100 : (1900 + y) % 100 = y % 100 := by omega
  have e400a : ((1900 + y) % 400 == 0) = false := by
    simp only [beq_eq_false_iff_ne, ne_eq]
    omega
  have e400b : (y % 400 == 0) = false := by
    simp only [beq_eq_false_iff_ne, ne_eq]
    omega
  rw [e4, e100, e400a, e400b]

/-- For years 1 .. 99, month lengths agree with the corresponding remapped
year. -/
theorem daysInMonth_1900_shift (y m : Int) (h1 : 1 ≤ y) (h99 : y ≤ 99) :
    daysInMonth (1900 + y) m = daysInMonth y m := by
  unfold daysInMonth
  rw [isLeapYear_1900_shift y h1 h99]

/-- Every `dayDelta` is one of (1,1) — counted and attended —, (0,1) — counted
and absent —, or (0,0) — not counted at all. -/
theorem dayDelta_shape (ma : List Int) (ts ldtc y m d : Int) :
    dayDelta ma ts ldtc y m d = (1, 1) ∨ dayDelta ma ts ldtc y m d = (0, 1) ∨
      dayDelta ma ts ldtc y m d = (0, 0) := by
  unfold dayDelta
  dsimp only
  split_ifs <;> simp

/-- The attended counter never exceeds the total counter, at every point of the
day loop. -/
theorem countsAfter_fst_le_snd (records : List Int) (ts now y m : Int) :
    ∀ k, (countsAfter records ts now y m k).1 ≤ (countsAfter records ts now y m k).2 := by
  intro k
  induction k with
  | zero => simp [countsAfter]
  | succ n ih =>
    have h := dayDelta_shape (monthAttendance records y m) ts (lastDayToCount y m now)
      y m ((n : Int) + 1)
    unfold countsAfter
    dsimp only
    rcases h with h | h | h <;> rw [h] <;> dsimp only <;> omega

/-- A day whose delta is (0,0) leaves both counters unchanged. -/
theorem countsAfter_step_zero (records : List Int) (ts now y m : Int) (k : Nat)
    (h : dayDelta (monthAttendance records y m) ts (lastDayToCount y m now) y m
      ((k : Int) + 1) = (0, 0)) :
    countsAfter records ts now y m (k + 1) = countsAfter records ts now y m k := by
  have hstep : countsAfter records ts now y m (k + 1) =
      ((countsAfter records ts now y m k).1 +
        (dayDelta (monthAttendance records y m) ts (lastDayToCount y m now) y m
          ((k : Int) + 1)).1,
       (countsAfter records ts now y m k).2 +
        (dayDelta (monthAttendance records y m) ts (lastDayToCount y m now) y m
          ((k : Int) + 1)).2) := rfl
  rw [hstep, h]
  simp

/-- The exact integer rounding never exceeds 100 percent when the numerator is
bounded by the denominator. -/
theorem attendanceRate_le_100 (a t : Nat) (h : a ≤ t) : attendanceRate a t ≤ 100 := by
  unfold attendanceRate
  split_ifs with ht
  · have hlt : (200 * a + t) / (2 * t) < 101 := by
      rw [Nat.div_lt_iff_lt_mul (by omega : 0 < 2 * t)]
      omega
    omega
  · omega

/-! ### Claim theorems -/

/-- Claim C6 counterexample: at year 0, month 1 the program computes
`new Date(0, 2, 0).getDate()` — the `MakeFullYear` rule turns year 0 into
1900, whose February has 28 days — while the calendar-correct length of
February of year 0 (a leap year) is 29.  So the day count and the
calendar-correct value disagree at a covered input. -/
theorem jsLastDay_year0_february :
    jsLastDay 0 1 = 28 ∧ daysInMonth 0 1 = 29 ∧ jsLastDay 0 1 ≠ daysInMonth 0 1 := by
  refine ⟨by decide, by decide, by decide⟩

/-- Claim C6 as amended: for every year outside 0 .. 99 and every month index
0 .. 11 the day count the loop iterates over equals the calendar-correct month
length, including February in leap and non-leap years; for years 0 .. 99 the
constructor's `MakeFullYear` remap makes it the calendar-correct length of
year 1900 + y instead — which still agrees with year y's own length for years
1 .. 99, leaving February of year 0 (28 instead of 29) as the only
disagreement. -/
theorem jsLastDay_matches_calendar :
    (∀ y m : Int, 0 ≤ m → m ≤ 11 → (y < 0 ∨ 100 ≤ y) →
      jsLastDay y m = daysInMonth y m) ∧
    (∀ y m : Int, 0 ≤ y → y ≤ 99 → 0 ≤ m → m ≤ 11 →
      jsLastDay y m = daysInMonth (1900 + y) m) ∧
    (∀ y m : Int, 1 ≤ y → y ≤ 99 → 0 ≤ m → m ≤ 11 →
      jsLastDay y m = daysInMonth y m) := by
  have hout : ∀ y : Int, (y < 0 ∨ 100 ≤ y) → makeFullYear y = y := by
    intro y hy
    unfold makeFullYear
    rw [if_neg (by omega)]
  have hin : ∀ y : Int, 0 ≤ y → y ≤ 99 → makeFullYear y = 1900 + y := by
    intro y h0 h99
    unfold makeFullYear
    rw [if_pos ⟨h0, h99⟩]
  refine ⟨?_, ?_, ?_⟩
  · intro y m hm0 hm1 hy
    unfold jsLastDay
    rw [hout y hy]
    exact lastDayOfMonth_correct y m hm0 hm1
  · intro y m hy0 hy99 hm0 hm1
    unfold jsLastDay
    rw [hin y hy0 hy99]
    exact lastDayOfMonth_correct (1900 + y) m hm0 hm1
  · intro y m hy1 hy99 hm0 hm1
    unfold jsLastDay
    rw [hin y (by omega) hy99]
    rw [lastDayOfMonth_correct (1900 + y) m hm0 hm1]
    exact daysInMonth_1900_shift y m hy1 hy99

/-- Witness for the amended C6: February 2024 (leap, unremapped) has 29 days;
year 24 is remapped to 1924, whose February has 29 days; year 99 agrees with
its own (non-leap) February of 28 days. -/
theorem jsLastDay_matches_calendar_witness :
    jsLastDay 2024 1 = daysInMonth 2024 1 ∧
      jsLastDay 24 1 = daysInMonth (1900 + 24) 1 ∧
      jsLastDay 99 1 = daysInMonth 99 1 :=
  ⟨jsLastDay_matches_calendar.1 2024 1 (by decide) (by decide) (Or.inr (by decide)),
   jsLastDay_matches_calendar.2.1 24 1 (by decide) (by decide) (by decide) (by decide),
   jsLastDay_matches_calendar.2.2 99 1 (by decide) (by decide) (by decide) (by decide)⟩

/-- Claim C2: a raid day (UTC Wednesday or Saturday) lying strictly before the
tracking-start instant contributes to neither counter, whatever attendance
records exist; processing it leaves the loop state unchanged. -/
theorem raid_day_before_tracking_uncounted (records : List Int)
    (trackingStart now y m : Int) (k : Nat)
    (hraid : getUTCDay (msOfUTC y m ((k : Int) + 1)) = 3 ∨
      getUTCDay (msOfUTC y m ((k : Int) + 1)) = 6)
    (hbefore : msOfUTC y m ((k : Int) + 1) < trackingStart) :
    dayDelta (monthAttendance records y m) trackingStart (lastDayToCount y m now)
        y m ((k : Int) + 1) = (0, 0) ∧
      countsAfter records trackingStart now y m (k + 1) =
        countsAfter records trackingStart now y m k := by
  have hT : (decide (trackingStart ≤ msOfUTC y m ((k : Int) + 1))) = false := by
    simp only [decide_eq_false_iff_not]
    omega
  have hd : dayDelta (monthAttendance records y m) trackingStart
      (lastDayToCount y m now) y m ((k : Int) + 1) = (0, 0) := by
    unfold dayDelta
    dsimp only
    rw [hT]
    split <;> simp
  exact ⟨hd, countsAfter_step_zero records trackingStart now y m k hd⟩

/-- Witness for C2: Wednesday 2024-01-03 with tracking starting 2024-01-10,
and a record on that very date. -/
theorem raid_day_before_tracking_uncounted_witness :
    dayDelta (monthAttendance [msOfUTCTime 2024 0 3 19 0 0 0] 2024 0)
        (msOfUTC 2024 0 10) (lastDayToCount 2024 0 (msOfUTC 2024 5 15)) 2024 0
        (((2 : Nat) : Int) + 1) = (0, 0) ∧
      countsAfter [msOfUTCTime 2024 0 3 19 0 0 0] (msOfUTC 2024 0 10)
          (msOfUTC 2024 5 15) 2024 0 (2 + 1) =
        countsAfter [msOfUTCTime 2024 0 3 19 0 0 0] (msOfUTC 2024 0 10)
          (msOfUTC 2024 5 15) 2024 0 2 :=
  raid_day_before_tracking_uncounted [msOfUTCTime 2024 0 3 19 0 0 0]
    (msOfUTC 2024 0 10) (msOfUTC 2024 5 15) 2024 0 2 (Or.inl (by decide)) (by decide)

/-- Claim C5: when the viewed month is the current UTC month, a raid day lying
after `now` contributes to neither counter; processing it leaves the loop
state unchanged. -/
theorem future_raid_day_uncounted (records : List Int)
    (trackingStart now y m : Int) (k : Nat)
    (hy : y = getUTCFullYear now) (hm : m = getUTCMonth now)
    (hraid : getUTCDay (msOfUTC y m ((k : Int) + 1)) = 3 ∨
      getUTCDay (msOfUTC y m ((k : Int) + 1)) = 6)
    (hfuture : now < msOfUTC y m ((k : Int) + 1)) :
    dayDelta (monthAttendance records y m) trackingStart (lastDayToCount y m now)
        y m ((k : Int) + 1) = (0, 0) ∧
      countsAfter records trackingStart now y m (k + 1) =
        countsAfter records trackingStart now y m k := by
  have hcm : isCurrentMonth y m now = true := by
    unfold isCurrentMonth
    rw [hy, hm]
    simp
  have hld : lastDayToCount y m now = now := by
    unfold lastDayToCount
    rw [hcm]
    simp
  have hC : (decide (msOfUTC y m ((k : Int) + 1) ≤ lastDayToCount y m now)) = false := by
    rw [hld]
    simp only [decide_eq_false_iff_not]
    omega
  have hd : dayDelta (monthAttendance records y m) trackingStart
      (lastDayToCount y m now) y m ((k : Int) + 1) = (0, 0) := by
    unfold dayDelta
    dsimp only
    rw [hC]
    simp
  exact ⟨hd, countsAfter_step_zero records trackingStart now y m k hd⟩

/-- Witness for C5: viewing January 2024 on 2024-01-15 noon, the raid day
Wednesday 2024-01-17 lies in the future, with a record on that very date. -/
theorem future_raid_day_uncounted_witness :
    dayDelta (monthAttendance [msOfUTCTime 2024 0 17 19 0 0 0] 2024 0) 0
        (lastDayToCount 2024 0 (msOfUTCTime 2024 0 15 12 0 0 0)) 2024 0
        (((16 : Nat) : Int) + 1) = (0, 0) ∧
      countsAfter [msOfUTCTime 2024 0 17 19 0 0 0] 0
          (msOfUTCTime 2024 0 15 12 0 0 0) 2024 0 (16 + 1) =
        countsAfter [msOfUTCTime 2024 0 17 19 0 0 0] 0
          (msOfUTCTime 2024 0 15 12 0 0 0) 2024 0 16 :=
  future_raid_day_uncounted [msOfUTCTime 2024 0 17 19 0 0 0] 0
    (msOfUTCTime 2024 0 15 12 0 0 0) 2024 0 16 (by decide) (by decide)
    (Or.inl (by decide)) (by decide)

/-- Claim C3: a counted raid day increments the attended counter by at most 1
however many records fall within it; and in the concrete duplicate-record
scenario — two identical records on Wednesday 2024-01-03, tracking from
2024-01-01, viewed on 2024-01-04 so that Jan 3 is the only counted raid day —
the result is attended = 1, total = 1, rate = 100. -/
theorem attended_at_most_once_per_raid_day :
    (∀ (ma : List Int) (ts ldtc y m d : Int), (dayDelta ma ts ldtc y m d).1 ≤ 1) ∧
      generateCalendarCounts
          [msOfUTCTime 2024 0 3 19 0 0 0, msOfUTCTime 2024 0 3 19 0 0 0]
          (msOfUTC 2024 0 1) (msOfUTCTime 2024 0 4 12 0 0 0) 2024 0 = (1, 1) ∧
      generateCalendarFooter
          [msOfUTCTime 2024 0 3 19 0 0 0, msOfUTCTime 2024 0 3 19 0 0 0]
          (msOfUTC 2024 0 1) (msOfUTCTime 2024 0 4 12 0 0 0) 2024 0 =
        .rate 100 1 1 := by
  refine ⟨?_, by decide, by decide⟩
  intro ma ts ldtc y m d
  rcases dayDelta_shape ma ts ldtc y m d with h | h | h <;> rw [h] <;> simp

/-- Claim C9: at every iteration of the day loop the attended counter is at
most the total counter; hence the rate is at most 100 (it is a natural number,
so at least 0), a zero total forces a zero attended count, and the code's
no-data guard `attended == 0 && total == 0` is equivalent to
`total == 0`. -/
theorem calendar_counts_invariant (records : List Int) (ts now y m : Int) :
    (∀ k, (countsAfter records ts now y m k).1 ≤
      (countsAfter records ts now y m k).2) ∧
    attendanceRate (generateCalendarCounts records ts now y m).1
        (generateCalendarCounts records ts now y m).2 ≤ 100 ∧
    ((generateCalendarCounts records ts now y m).2 = 0 →
      (generateCalendarCounts records ts now y m).1 = 0) ∧
    (((generateCalendarCounts records ts now y m).1 = 0 ∧
        (generateCalendarCounts records ts now y m).2 = 0) ↔
      (generateCalendarCounts records ts now y m).2 = 0) := by
  have hle := countsAfter_fst_le_snd records ts now y m
  have hc : (generateCalendarCounts records ts now y m).1 ≤
      (generateCalendarCounts records ts now y m).2 := by
    unfold generateCalendarCounts
    exact hle _
  exact ⟨hle, attendanceRate_le_100 _ _ hc, fun h => by omega,
    fun h => h.2, fun h => ⟨by omega, h⟩⟩

/-- Witness for C9: with tracking starting only in 2030, January 2024 has a
zero total, and the theorem then forces a zero attended count. -/
theorem calendar_counts_invariant_witness :
    (generateCalendarCounts [] (msOfUTC 2030 0 1) (msOfUTC 2024 1 15) 2024 0).1 = 0 :=
  (calendar_counts_invariant [] (msOfUTC 2030 0 1) (msOfUTC 2024 1 15) 2024 0).2.2.1
    (by decide)

/-- Claim C4: with zero counted raid days the footer is the no-data message
carrying the tracking start (and hence no rate line); with at least one counted
raid day it is the rate line with the exactly-rounded percentage. -/
theorem footer_no_data_or_rate (records : List Int) (ts now y m : Int) :
    ((generateCalendarCounts records ts now y m).2 = 0 →
      generateCalendarFooter records ts now y m = .noData ts) ∧
    (0 < (generateCalendarCounts records ts now y m).2 →
      generateCalendarFooter records ts now y m =
        .rate (attendanceRate (generateCalendarCounts records ts now y m).1
            (generateCalendarCounts records ts now y m).2)
          (generateCalendarCounts records ts now y m).1
          (generateCalendarCounts records ts now y m).2) := by
  have hc : (generateCalendarCounts records ts now y m).1 ≤
      (generateCalendarCounts records ts now y m).2 := by
    unfold generateCalendarCounts
    exact countsAfter_fst_le_snd records ts now y m _
  constructor
  · intro h0
    have ha : (generateCalendarCounts records ts now y m).1 = 0 := by omega
    unfold generateCalendarFooter
    dsimp only
    rw [ha, h0]
    simp
  · intro hpos
    have h2 : (generateCalendarCounts records ts now y m).2 ≠ 0 := by omega
    unfold generateCalendarFooter
    dsimp only
    simp [h2]

/-- Claim C1 counterexample: a `month` option of `"13"` (with the current date
being October 2025, month index 9) is not rejected — execution proceeds to the
guild-member fetch with month 13 and the year decremented, so no user-visible
validation error precedes the external fetches. -/
theorem month_option_13_not_rejected :
    executePreFetch ⟨fun _ _ => 0, 0, 0, 2025, 9⟩ none (some "13") =
        .proceedToFetch 2024 (some 13) ∧
      (executePreFetch ⟨fun _ _ => 0, 0, 0, 2025, 9⟩ none
        (some "13")).isValidationReply = false :=
  ⟨by decide, by decide⟩

/-- Claim C1 as amended: the custom date string `"13/2024"` is always rejected
with the format-validation reply before any external fetch, whatever the
ambient date and whatever the `month` option; a `month` option of `"13"`,
however, passes through unvalidated to the guild-member fetch, with month 13
and the year decremented (since 13 exceeds every real current-month
index). -/
theorem month13_validation_amended :
    (∀ (env : ExecuteEnv) (rm : Option String),
      executePreFetch env (some "13/2024") rm = .invalidFormat) ∧
    (∀ env : ExecuteEnv, env.todayMonth ≤ 11 →
      executePreFetch env none (some "13") =
        .proceedToFetch (env.todayYear - 1) (some 13)) := by
  constructor
  · intro env rm
    unfold executePreFetch
    dsimp only
    rfl
  · intro env h
    have hp : parseIntJS (some "13".toList) = some 13 := by decide
    unfold executePreFetch
    dsimp only
    rw [hp]
    dsimp only
    rw [if_pos (by omega)]

/-- Witness for the amended C1, at the concrete ambient date October 2025. -/
theorem month13_validation_amended_witness :
    executePreFetch ⟨fun _ _ => 0, 0, 0, 2025, 9⟩ (some "13/2024") none =
        .invalidFormat ∧
      executePreFetch ⟨fun _ _ => 0, 0, 0, 2025, 9⟩ none (some "13") =
        .proceedToFetch 2024 (some 13) :=
  ⟨month13_validation_amended.1 ⟨fun _ _ => 0, 0, 0, 2025, 9⟩ none,
   month13_validation_amended.2 ⟨fun _ _ => 0, 0, 0, 2025, 9⟩ (by decide)⟩

/-- Claim C7: `deleteUsers` attempts every user in order — one log entry per
user, whatever each HTTP outcome is — and, concretely, an HTTP failure for the
first user and a thrown error for the second do not prevent the deletion of
the third. -/
theorem deleteUsers_continues_after_failure :
    (∀ (env : Int → DeleteFetchResult) (users : List DeniedUsers),
      (deleteUsers env users).map DeleteLogEntry.userOf =
        users.map (fun u => u.user_id)) ∧
      deleteUsers
          (fun i => if i = 1 then .notOk 500 "server error"
            else if i = 2 then .threw "network down" else .okJson "ok")
          [⟨"Ann", "ann", 1, "corpsman", none, none⟩,
           ⟨"Bob", "bob", 2, "pilot", none, none⟩,
           ⟨"Cid", "cid", 3, "rifleman", none, none⟩] =
        [.failedHttp 1 500 "server error", .errored 2 "network down",
          .success 3] := by
  refine ⟨?_, by decide⟩
  intro env users
  induction users with
  | nil => rfl
  | cons u rest ih =>
    have h1 : DeleteLogEntry.userOf (deleteOne env u) = u.user_id := by
      unfold deleteOne
      cases env u.user_id <;> rfl
    simp [deleteUsers, h1, ih]

/-- Pages below the starting one never influence `pagesLoop`. -/
theorem pagesLoop_congr (e1 e2 : PerscomEnv)
    (hp : ∀ p : Int, 4 ≤ p → e1.pages p = e2.pages p) :
    ∀ (n : Nat) (page : Int), 4 ≤ page → pagesLoop e1 page n = pagesLoop e2 page n := by
  intro n
  induction n with
  | zero => intro page _; rfl
  | succ k ih =>
    intro page hpage
    unfold pagesLoop
    rw [hp page hpage]
    cases e2.pages page with
    | ok data => rw [ih (page + 1) (by omega)]
    | notOk s t => rfl
    | threw e => rfl

/-- Claim C8: the paging loop starts at the hardcoded page 4, so the result
never depends on what pages 1 to 3 serve; concretely, with form-1 submissions
on pages 1 to 3 only, the returned list is empty. -/
theorem getAllForm1Data_skips_early_pages :
    (∀ e1 e2 : PerscomEnv, e1.metadata = e2.metadata →
      (∀ p : Int, 4 ≤ p → e1.pages p = e2.pages p) →
      getAllForm1Data e1 = getAllForm1Data e2) ∧
      getAllForm1Data perscomEnvEarlyOnly = [] ∧
      perscomEnvEarlyOnly.pages 1 = .ok [sampleSubmissionPage4] := by
  refine ⟨?_, by decide, by decide⟩
  intro e1 e2 hm hp
  unfold getAllForm1Data
  rw [← hm]
  cases e1.metadata with
  | ok lp => exact pagesLoop_congr e1 e2 hp _ 4 (by omega)
  | notOk s t => rfl
  | threw e => rfl

/-- Witness for C8: an environment serving submissions only on pages 1 to 3
yields the same (empty) result as one serving nothing at all. -/
theorem getAllForm1Data_skips_early_pages_witness :
    getAllForm1Data perscomEnvEarlyOnly = getAllForm1Data perscomEnvAllEmpty :=
  getAllForm1Data_skips_early_pages.1 perscomEnvEarlyOnly perscomEnvAllEmpty rfl
    (fun p hp => by
      unfold perscomEnvEarlyOnly perscomEnvAllEmpty
      dsimp only
      rw [if_neg (by omega)])

/-- Every element of `pagesLoop` comes from an `ok` page at or past the
starting one, from a submission with `form_id = 1`. -/
theorem pagesLoop_mem (env : PerscomEnv) :
    ∀ (n : Nat) (page : Int) (x : Form1Submission), x ∈ pagesLoop env page n →
      ∃ (p : Int) (data : List Submission) (s : Submission), page ≤ p ∧
        env.pages p = .ok data ∧ s ∈ data ∧ s.form_id = 1 ∧ x = toForm1 s := by
  intro n
  induction n with
  | zero => intro page x hx; simp [pagesLoop] at hx
  | succ k ih =>
    intro page x hx
    unfold pagesLoop at hx
    cases hpage : env.pages page with
    | ok data =>
      rw [hpage] at hx
      rcases List.mem_append.mp hx with h | h
      · rcases List.mem_map.mp h with ⟨s, hs, hxs⟩
        rcases List.mem_filter.mp hs with ⟨hsd, hfid⟩
        exact ⟨page, data, s, le_refl _, hpage, hsd, by simpa using hfid, hxs.symm⟩
      · rcases ih (page + 1) x h with ⟨p, data2, s, hpp, h1, h2, h3, h4⟩
        exact ⟨p, data2, s, by omega, h1, h2, h3, h4⟩
    | notOk s t =>
      rw [hpage] at hx
      simp at hx
    | threw e =>
      rw [hpage] at hx
      simp at hx

/-- Claim C10: every returned element originates from a fetched submission
with `form_id = 1` on some page at or past 4, and its `form_id` field carries
that submission's `id` (its submission identifier), not its `form_id`. -/
theorem getAllForm1Data_provenance (env : PerscomEnv) (x : Form1Submission)
    (hx : x ∈ getAllForm1Data env) :
    ∃ (p : Int) (data : List Submission) (s : Submission), 4 ≤ p ∧
      env.pages p = .ok data ∧ s ∈ data ∧ s.form_id = 1 ∧ x = toForm1 s ∧
      x.form_id = s.id := by
  unfold getAllForm1Data at hx
  cases hm : env.metadata with
  | ok lp =>
    rw [hm] at hx
    rcases pagesLoop_mem env _ 4 x hx with ⟨p, data, s, hp, h1, h2, h3, h4⟩
    exact ⟨p, data, s, hp, h1, h2, h3, h4, by rw [h4]; rfl⟩
  | notOk s t =>
    rw [hm] at hx
    simp at hx
  | threw e =>
    rw [hm] at hx
    simp at hx

/-- Witness for C10: in `samplePerscomEnv` the returned element has
`form_id = 99`, the submission id, while the originating submission's own
`form_id` is 1. -/
theorem getAllForm1Data_provenance_witness :
    (∃ (p : Int) (data : List Submission) (s : Submission), 4 ≤ p ∧
      samplePerscomEnv.pages p = .ok data ∧ s ∈ data ∧ s.form_id = 1 ∧
      toForm1 sampleSubmissionPage4 = toForm1 s ∧
      (toForm1 sampleSubmissionPage4).form_id = s.id) ∧
      (toForm1 sampleSubmissionPage4).form_id = 99 :=
  ⟨getAllForm1Data_provenance samplePerscomEnv (toForm1 sampleSubmissionPage4)
    (by decide), by decide⟩

/-- Witness for C4: tracking starting only in 2030 gives the no-data footer
for January 2024; tracking from the epoch gives the rate footer. -/
theorem footer_no_data_or_rate_witness :
    generateCalendarFooter [] (msOfUTC 2030 0 1) (msOfUTC 2024 1 15) 2024 0 =
        .noData (msOfUTC 2030 0 1) ∧
      generateCalendarFooter [] 0 (msOfUTC 2024 1 15) 2024 0 =
        .rate
          (attendanceRate (generateCalendarCounts [] 0 (msOfUTC 2024 1 15) 2024 0).1
            (generateCalendarCounts [] 0 (msOfUTC 2024 1 15) 2024 0).2)
          (generateCalendarCounts [] 0 (msOfUTC 2024 1 15) 2024 0).1
          (generateCalendarCounts [] 0 (msOfUTC 2024 1 15) 2024 0).2 :=
  ⟨(footer_no_data_or_rate [] (msOfUTC 2030 0 1) (msOfUTC 2024 1 15) 2024 0).1
      (by decide),
   (footer_no_data_or_rate [] 0 (msOfUTC 2024 1 15) 2024 0).2 (by decide)⟩
